import Mathlib

/-!
Verification of the postal-code lookup service (`postal_data.py`,
`postal_data_clean.py`, `postal_data_backup.py`).

Python strings are modelled as Lean `String` / `List Char`; scores
(Python floats that are always small-denominator rationals here) as `ℚ`;
the remote HTTP service as an explicit oracle argument, so that
"performs a network call" and "emits an error message" are observable
in the result.
-/

namespace PostalCode

/-! ### Python string primitives used by the service -/

/-- The two separator characters removed by
`postal_code.replace("-", "").replace("−", "")`:
ASCII hyphen and full-width minus (U+2212). -/
def isSep (c : Char) : Bool := c = '-' || c = '−'

/-- `s.replace("-", "").replace("−", "")`. -/
def stripSeps (s : String) : String := ⟨s.data.filter (fun c => !isSep c)⟩

/-- Python `str.isdigit` on one character.  Python accepts all Unicode
decimal digits; we model the ASCII digits and the full-width digits
（U+FF10–U+FF19）, the only digit characters relevant to this input domain. -/
def pyIsDigit (c : Char) : Bool := c.isDigit || ('０' ≤ c && c ≤ '９')

/-- Python `str.isdigit`: non-empty and all characters digits. -/
def pyIsDigitStr (s : String) : Bool := !s.data.isEmpty && s.data.all pyIsDigit

/-- Whitespace as used by Python `str.strip()` / `str.split()`:
ASCII whitespace and the ideographic space U+3000. -/
def isPyWs (c : Char) : Bool :=
  c = ' ' || c = '\t' || c = '\n' || c = '\r' || c = '\x0b' || c = '\x0c' || c = '　'

/-- Python `str.strip()`: drop whitespace from both ends. -/
def pyStrip (l : List Char) : List Char :=
  ((l.dropWhile isPyWs).reverse.dropWhile isPyWs).reverse

/-- `s.replace(" ", "").replace("　", "")`. -/
def removeSpaces (l : List Char) : List Char :=
  l.filter (fun c => c ≠ ' ' && c ≠ '　')

/-- Worker for `pySplit`, accumulating the current token reversed. -/
def pySplitAux : List Char → List Char → List (List Char)
  | acc, [] => if acc.isEmpty then [] else [acc.reverse]
  | acc, c :: rest =>
      if isPyWs c then
        if acc.isEmpty then pySplitAux [] rest else acc.reverse :: pySplitAux [] rest
      else pySplitAux (c :: acc) rest

/-- Python `str.split()` with no argument: split on whitespace runs,
discarding empty tokens. -/
def pySplit (l : List Char) : List (List Char) := pySplitAux [] l

/-- Python's substring test `needle in hay` on strings
(true for the empty needle). -/
def isSubstring (needle : List Char) : List Char → Bool
  | [] => needle.isEmpty
  | c :: rest => needle.isPrefixOf (c :: rest) || isSubstring needle rest

/-- `f"{clean[:3]}-{clean[3:]}"`. -/
def fmt7 (s : String) : String := ⟨s.data.take 3 ++ '-' :: s.data.drop 3⟩

/-! ### Forward lookup: `get_address_by_postal_code`
(identical in `postal_data.py` and `postal_data_clean.py`). -/

/-- One element of the zipcloud `results` array.  The Python code reads
`result.get("address1", "")` etc.; the `.get` default is folded into the
field values. -/
structure ApiResult where
  address1 : String
  address2 : String
  address3 : String
  kana1 : String
  kana2 : String
  kana3 : String
deriving DecidableEq

/-- Behaviour of the single zipcloud HTTP request, as an oracle:
HTTP layer succeeded with a parsed JSON body (`ok`, carrying the body's
`status` field and `results` array, `[]` for a null/absent array);
a `requests.RequestException` (connection error, timeout, non-2xx via
`raise_for_status`); or a `json.JSONDecodeError` from `response.json()`. -/
inductive NetResult where
  | ok (status : Nat) (results : List ApiResult)
  | requestError
  | jsonDecodeError
deriving DecidableEq

/-- A user-visible message emitted via `st.error`. -/
inductive ErrMsg where
  | comm
  | parse
deriving DecidableEq

/-- The address record built from a successful lookup. -/
structure AddressRecord where
  postal_code : String
  prefecture : String
  city : String
  town : String
  full_address : String
  prefecture_kana : String
  city_kana : String
  town_kana : String
deriving DecidableEq

/-- Observable outcome of `get_address_by_postal_code`: the returned
value, whether the network was consulted, and the `st.error` messages
emitted. -/
structure LookupResult where
  value : Option AddressRecord
  networkCalled : Bool
  errors : List ErrMsg
deriving DecidableEq

/-- `PostalCodeService.get_address_by_postal_code` (postal_data.py
lines 13–62; byte-identical in postal_data_clean.py). -/
def get_address_by_postal_code (postal_code : String) (net : NetResult) : LookupResult :=
  let clean := stripSeps postal_code
  -- `if not clean.isdigit() or len(clean) != 7: return None`
  if pyIsDigitStr clean && clean.length == 7 then
    match net with
    | .ok status results =>
        -- `if data.get("status") == 200 and data.get("results"):` —
        -- the `results` array must be truthy, i.e. non-empty.
        match results with
        | r :: _ =>
            if status = 200 then
              { value := some
                  { postal_code := fmt7 clean
                    prefecture := r.address1
                    city := r.address2
                    town := r.address3
                    full_address := r.address1 ++ r.address2 ++ r.address3
                    prefecture_kana := r.kana1
                    city_kana := r.kana2
                    town_kana := r.kana3 }
                networkCalled := true
                errors := [] }
            else { value := none, networkCalled := true, errors := [] }
        | [] => { value := none, networkCalled := true, errors := [] }
    | .requestError => { value := none, networkCalled := true, errors := [.comm] }
    | .jsonDecodeError => { value := none, networkCalled := true, errors := [.parse] }
  else { value := none, networkCalled := false, errors := [] }

/-- `PostalCodeService.format_postal_code` (postal_data.py lines 177–190;
identical in the other two variants). -/
def format_postal_code (postal_code : String) : String :=
  let clean_code := stripSeps postal_code
  if clean_code.length == 7 && pyIsDigitStr clean_code then fmt7 clean_code
  else postal_code

/-! ### Match scoring -/

/-- A reverse-search candidate (`{"postal_code": ..., "full_address": ...,
"match_score": ...}`; the constant "source" tag added by some variants is
omitted as it carries no information). -/
structure MatchCandidate where
  postal_code : String
  full_address : String
  match_score : ℚ
deriving DecidableEq

/-- `PostalCodeService._calculate_match_score` (postal_data.py lines
166–175): Jaccard-like character overlap
`len(query_parts & target_parts) / len(query_parts)`.
Exact fractions are written with `Rat.divInt` (integer division in ℚ,
definitionally well-behaved) rather than field division. -/
def calculate_match_score (query target : String) : ℚ :=
  let query_parts := (removeSpaces query.data).toFinset
  let target_parts := (removeSpaces target.data).toFinset
  if query_parts = ∅ then 0
  else Rat.divInt ((query_parts ∩ target_parts).card : ℤ) (query_parts.card : ℤ)

/-- `PostalCodeService._calculate_simple_match_score`
(postal_data_clean.py lines 219–246). -/
def calculate_simple_match_score (query target : String) : ℚ :=
  if query = "" ∨ target = "" then 0
  else
    let query_clean := removeSpaces query.data
    let target_clean := removeSpaces target.data
    if query_clean = target_clean then 1
    else if isSubstring query_clean target_clean then Rat.divInt 95 100
    else if isSubstring target_clean query_clean then Rat.divInt 9 10
    else
      let query_chars := query_clean.toFinset
      let target_chars := target_clean.toFinset
      if query_chars = ∅ then 0
      else Rat.divInt ((query_chars ∩ target_chars).card : ℤ) ((query_chars.card : ℤ))

/-! ### Prefecture and city extraction -/

/-- The fixed list of the 47 prefecture names, in the order it appears in
every variant of the source. -/
def prefectures : List String :=
  ["北海道", "青森県", "岩手県", "宮城県", "秋田県", "山形県", "福島県",
   "茨城県", "栃木県", "群馬県", "埼玉県", "千葉県", "東京都", "神奈川県",
   "新潟県", "富山県", "石川県", "福井県", "山梨県", "長野県", "岐阜県",
   "静岡県", "愛知県", "三重県", "滋賀県", "京都府", "大阪府", "兵庫県",
   "奈良県", "和歌山県", "鳥取県", "島根県", "岡山県", "広島県", "山口県",
   "徳島県", "香川県", "愛媛県", "高知県", "福岡県", "佐賀県", "長崎県",
   "熊本県", "大分県", "宮崎県", "鹿児島県", "沖縄県"]

/-- The loop `for pref in prefectures: if pref in address: ...; break`,
shared by postal_data.py lines 96–99 and `_extract_prefecture_city`. -/
def findPrefecture (address : List Char) : Option String :=
  prefectures.find? (fun p => isSubstring p.data address)

/-- `address[address.find(needle) + len(needle):]`: everything after the
first occurrence of `needle` (the needle is known to occur). -/
def dropAfterFirst (needle : List Char) : List Char → List Char
  | [] => []
  | c :: rest =>
      if needle.isPrefixOf (c :: rest) then (c :: rest).drop needle.length
      else dropAfterFirst needle rest

/-- `s.replace(needle, "", 1)`: remove the first occurrence of `needle`
(non-empty), or return the string unchanged if it does not occur. -/
def removeFirst (needle : List Char) : List Char → List Char
  | [] => []
  | c :: rest =>
      if needle.isPrefixOf (c :: rest) then (c :: rest).drop needle.length
      else c :: removeFirst needle rest

/-- The inner loop of `_extract_prefecture_city`
(postal_data_clean.py lines 269–273; identical in postal_data_backup.py):
`for suffix in ["市", "区", "町", "村"]: if suffix in remaining:
city = remaining[:remaining.find(suffix) + 1]; break`. -/
def cityLoop (remaining : List Char) : Option (List Char) :=
  match ['市', '区', '町', '村'].find? (fun s => remaining.contains s) with
  | some s => some (remaining.take (remaining.findIdx (· == s) + 1))
  | none => none

/-- `PostalCodeService._extract_prefecture_city`
(postal_data_clean.py lines 248–280; identical in postal_data_backup.py
lines 278–310).  Returns `(prefecture, city)`. -/
def extract_prefecture_city (address : List Char) :
    Option (List Char) × Option (List Char) :=
  match findPrefecture address with
  | none => (none, none)
  | some p =>
      let remaining := pyStrip (dropAfterFirst p.data address)
      let city₀ := cityLoop remaining
      -- `if not city and remaining: city = remaining.split()[0]
      --   if remaining.split() else remaining[:6]`
      let cityTruthy := match city₀ with
        | some c => !c.isEmpty
        | none => false
      let city :=
        if !cityTruthy && !remaining.isEmpty then
          some (match pySplit remaining with
                | t :: _ => t
                | [] => remaining.take 6)
        else city₀
      (some p.data, city)

/-! ### Sample-data reverse search (postal_data.py) -/

/-- The hard-coded `sample_data` table of
`_search_address_sample` (postal_data.py lines 119–149). -/
def sample_data (prefecture : String) : Option (List (String × String)) :=
  if prefecture = "東京都" then some
    [("100-0001", "東京都千代田区千代田"),
     ("100-0004", "東京都千代田区大手町"),
     ("100-0005", "東京都千代田区丸の内"),
     ("100-0006", "東京都千代田区有楽町"),
     ("100-0011", "東京都千代田区内幸町"),
     ("100-0013", "東京都千代田区霞が関"),
     ("100-0014", "東京都千代田区永田町"),
     ("105-0001", "東京都港区虎ノ門"),
     ("105-0003", "東京都港区西新橋"),
     ("105-0004", "東京都港区新橋"),
     ("106-0032", "東京都港区六本木"),
     ("107-0052", "東京都港区赤坂"),
     ("150-0001", "東京都渋谷区神宮前"),
     ("150-0002", "東京都渋谷区渋谷"),
     ("160-0022", "東京都新宿区新宿"),
     ("170-0013", "東京都豊島区東池袋")]
  else if prefecture = "大阪府" then some
    [("530-0001", "大阪府大阪市北区梅田"),
     ("540-0008", "大阪府大阪市中央区大手前"),
     ("542-0076", "大阪府大阪市中央区難波"),
     ("556-0011", "大阪府大阪市浪速区難波中")]
  else if prefecture = "神奈川県" then some
    [("220-0011", "神奈川県横浜市西区高島"),
     ("220-0012", "神奈川県横浜市西区みなとみらい"),
     ("231-0023", "神奈川県横浜市中区山下町")]
  else none

/-- The comparison passed to `results.sort(key=lambda x: x["match_score"],
reverse=True)`: a stable sort placing higher scores first. -/
def scoreDescLe (a b : MatchCandidate) : Bool := decide (b.match_score ≤ a.match_score)

/-- The `results` list built by the loop of
`_search_address_sample` (postal_data.py lines 151–160). -/
def sample_results (address : String) (prefecture : String) : List MatchCandidate :=
  match sample_data prefecture with
  | none => []
  | some items =>
      items.filterMap (fun item =>
        -- `if any(part in item["address"] for part in address.split()
        --         if len(part) > 1)`
        if (pySplit address.data).any
            (fun part => decide (part.length > 1) && isSubstring part item.2.data) then
          some { postal_code := item.1
                 full_address := item.2
                 match_score := calculate_match_score address item.2 }
        else none)

/-- `PostalCodeService._search_address_sample`
(postal_data.py lines 113–164). -/
def search_address_sample (address : String) (prefecture : String) :
    Option (List MatchCandidate) :=
  let sorted := (sample_results address prefecture).mergeSort scoreDescLe
  -- `return results[:10] if results else None`
  if sorted.isEmpty then none else some (sorted.take 10)

/-- The shared length guard
`if not address or len(address.strip()) < 2: return None`
(line 75 of both postal_data.py and postal_data_clean.py). -/
def inputTooShort (address : String) : Bool :=
  address == "" || decide ((pyStrip address.data).length < 2)

/-- `PostalCodeService.search_postal_code_by_address`
(postal_data.py lines 65–111).  No network access occurs on this path:
the candidates come from the in-memory sample table. -/
def search_postal_code_by_address (address : String) :
    Option (List MatchCandidate) :=
  if inputTooShort address then none
  else
    match findPrefecture address.data with
    | none => none
    | some target_prefecture => search_address_sample address target_prefecture

/-! ### API-probing reverse search (postal_data_clean.py) -/

/-- Behaviour of one probe `requests.get(self.base_url, ...)` inside
`_search_with_zipcloud_reverse`: HTTP 200 with a parsed body; an HTTP
status other than 200 (silently skipped); a `requests.RequestException`
(caught, `continue`); or HTTP 200 with an unparseable body
(`response.json()` raises, aborting the whole search). -/
inductive ProbeResp where
  | ok (status : Nat) (results : List ApiResult)
  | httpNon200
  | reqError
  | jsonError
deriving DecidableEq

/-- `f"{i:04d}"` for `i < 10000`: decimal, left-padded with zeros to
width 4. -/
def pad4 (i : Nat) : String :=
  let s := toString i
  ⟨List.replicate (4 - s.length) '0'⟩ ++ s

/-- `f"{n:03d}"`: decimal, left-padded with zeros to width 3. -/
def pad3 (n : Nat) : String :=
  let s := toString n
  ⟨List.replicate (3 - s.length) '0'⟩ ++ s

/-- The hard-coded `prefecture_ranges` table of
`_get_postal_patterns_extended` (postal_data_clean.py lines 285–310):
`Some ranges` when both the prefecture and the city are keys. -/
def prefecture_ranges (prefecture city : String) : Option (List String) :=
  if prefecture = "埼玉県" then
    if city = "熊谷市" then some ["360", "361"]
    else if city = "さいたま市" then some ["330", "331", "336", "337", "338"]
    else if city = "川口市" then some ["332", "333"]
    else if city = "川越市" then some ["350"]
    else if city = "所沢市" then some ["359"]
    else none
  else if prefecture = "千葉県" then
    if city = "千葉市" then some ["260", "261", "262", "263", "264", "265", "266"]
    else if city = "市川市" then some ["272"]
    else if city = "船橋市" then some ["273", "274"]
    else if city = "松戸市" then some ["270", "271"]
    else none
  else if prefecture = "東京都" then
    if city = "千代田区" then some ["100", "101", "102"]
    else if city = "中央区" then some ["103", "104"]
    else if city = "港区" then some ["105", "106", "107", "108"]
    else if city = "新宿区" then some ["160", "161", "162", "163", "169"]
    else if city = "渋谷区" then some ["150", "151"]
    else none
  else if prefecture = "大阪府" then
    if city = "大阪市" then some
      ["530", "531", "532", "533", "534", "535", "540", "541", "542",
       "543", "544", "545", "546", "547", "550", "551", "552", "553",
       "554", "556", "557", "558", "559"]
    else if city = "堺市" then some ["590", "591", "592", "593", "594", "599"]
    else none
  else none

/-- `PostalCodeService._get_postal_patterns_extended`
(postal_data_clean.py lines 282–326).  CPython's salted string `hash` in
the fallback branch is not reproducible, so the embedding is
parameterised by the hash function `pyHash`. -/
def get_postal_patterns_extended (pyHash : String → Nat)
    (prefecture city : String) : List String :=
  match prefecture_ranges prefecture city with
  | some ranges =>
      ranges.flatMap (fun rp => (List.range 10000).map (fun i => rp ++ pad4 i))
  | none =>
      let default_range := pad3 (pyHash (prefecture ++ city) % 900 + 100)
      (List.range 10000).map (fun i => default_range ++ pad4 i)

/-- The probe loop of `_search_with_zipcloud_reverse`
(postal_data_clean.py lines 143–177): one sequential zipcloud query per
pattern; collects every result whose simple match score exceeds 0.7.
`none` models the uncaught `json.JSONDecodeError` that aborts the whole
search (only `requests.RequestException` is caught and skipped). -/
def probeLoop (net : String → ProbeResp) (address : String) :
    List String → Option (List MatchCandidate)
  | [] => some []
  | pattern :: rest =>
      match net pattern with
      | .reqError => probeLoop net address rest
      | .httpNon200 => probeLoop net address rest
      | .jsonError => none
      | .ok status results =>
          let here : List MatchCandidate :=
            match results with
            | [] => []
            | _ :: _ =>
                if status = 200 then
                  results.filterMap (fun r =>
                    let full_address := r.address1 ++ r.address2 ++ r.address3
                    let match_score := calculate_simple_match_score address full_address
                    if Rat.divInt 7 10 < match_score then
                      some { postal_code := fmt7 pattern
                             full_address := full_address
                             match_score := match_score }
                    else none)
                else []
          (probeLoop net address rest).map (fun tail => here ++ tail)

/-- `PostalCodeService._search_with_zipcloud_reverse`
(postal_data_clean.py lines 117–193). -/
def search_with_zipcloud_reverse (address : String)
    (net : String → ProbeResp) (pyHash : String → Nat) :
    Option (List MatchCandidate) :=
  match extract_prefecture_city address.data with
  | (some pref, some city) =>
      -- `if not prefecture or not city: return None`
      if pref.isEmpty || city.isEmpty then none
      else
        let postal_patterns := get_postal_patterns_extended pyHash ⟨pref⟩ ⟨city⟩
        let max_check := min 50 postal_patterns.length
        match probeLoop net address (postal_patterns.take max_check) with
        | none => none
        | some results =>
            -- `if results: sort desc; return results[:10] else: return None`
            if results.isEmpty then none
            else some ((results.mergeSort scoreDescLe).take 10)
  | _ => none

/-! ### HeartRails path and the clean-variant entry point -/

/-- One element of the HeartRails `location` array. -/
structure HRLoc where
  postal : Option String
  prefecture : String
  city : String
  town : String
deriving DecidableEq

/-- `PostalCodeService._process_api_response`
(postal_data_clean.py lines 195–217). -/
def process_api_response (locations : List HRLoc) (original_address : String) :
    Option (List MatchCandidate) :=
  let results : List MatchCandidate :=
    (locations.take 10).filterMap (fun loc =>
      match loc.postal with
      | some postal_code =>
          -- `if postal_code:` — non-empty string
          if postal_code.isEmpty then none
          else
            let formatted := if postal_code.length = 7 then fmt7 postal_code
                             else postal_code
            let full_address := loc.prefecture ++ loc.city ++ loc.town
            some { postal_code := formatted
                   full_address := full_address
                   match_score :=
                     calculate_simple_match_score original_address full_address }
      | none => none)
  let sorted := results.mergeSort scoreDescLe
  if sorted.isEmpty then none else some sorted

/-- `PostalCodeService._search_with_heartrails_api`
(postal_data_clean.py lines 91–115).  The oracle `hr` is
`some locations` when the request returned HTTP 200 with a body whose
`response.location` is present (a singleton is already wrapped in a
list); `none` for every failure, all of which are swallowed. -/
def search_with_heartrails_api (address : String)
    (hr : Option (List HRLoc)) : Option (List MatchCandidate) :=
  match hr with
  | some locations =>
      if locations.isEmpty then none
      else process_api_response locations address
  | none => none

/-- `PostalCodeService.search_postal_code_by_address`
(postal_data_clean.py lines 65–89). -/
def search_postal_code_by_address_clean (address : String)
    (hr : Option (List HRLoc)) (net : String → ProbeResp)
    (pyHash : String → Nat) : Option (List MatchCandidate) :=
  if inputTooShort address then none
  else
    match search_with_heartrails_api address hr with
    | some results =>
        -- `if results: return results` — truthiness check
        if results.isEmpty then search_with_zipcloud_reverse address net pyHash
        else some results
    | none => search_with_zipcloud_reverse address net pyHash

/-! ### Structural scorer (postal_data_backup.py) -/

/-- A character excluded by the regex character class `[^都道府県]`. -/
def prefKindChar (c : Char) : Bool := c = '都' || c = '道' || c = '府' || c = '県'

/-- A character of the class `[市区町村]`. -/
def cityKindChar (c : Char) : Bool := c = '市' || c = '区' || c = '町' || c = '村'

/-- Matching of `[^都道府県]+?[市区町村]` at a fixed start position, after
the (mandatory, lazily extended) group already holds `acc` (reversed):
first try to finish with a `[市区町村]` character, else extend the lazy
group if the next character is allowed, else fail. -/
def matchFrom (acc : List Char) : List Char → Option (List Char)
  | [] => none
  | c :: rest =>
      if cityKindChar c then some (acc.reverse ++ [c])
      else if prefKindChar c then none
      else matchFrom (c :: acc) rest

/-- Matching of `[^都道府県]+?[市区町村]` anchored at the head of the
input: the lazy group needs at least one allowed character. -/
def matchAt : List Char → Option (List Char)
  | [] => none
  | c :: rest => if prefKindChar c then none else matchFrom [c] rest

/-- `re.search(r'([^都道府県]+?[市区町村])', s)`: leftmost match wins,
lazily shortest at that position. -/
def reSearchCity : List Char → Option (List Char)
  | [] => none
  | c :: rest =>
      match matchAt (c :: rest) with
      | some m => some m
      | none => reSearchCity rest

/-- The three address components extracted by
`PostalCodeService._extract_address_components`
(postal_data_backup.py lines 686–715). -/
structure AddrComponents where
  prefecture : List Char
  city : List Char
  area : List Char
deriving DecidableEq

/-- `PostalCodeService._extract_address_components`
(postal_data_backup.py lines 686–715). -/
def extract_address_components (address : List Char) : AddrComponents :=
  let (prefecture, rem₁) :=
    match prefectures.find? (fun p => isSubstring p.data address) with
    | some p => (p.data, removeFirst p.data address)
    | none => ([], address)
  let (city, rem₂) :=
    match reSearchCity rem₁ with
    | some m => (m, removeFirst m rem₁)
    | none => ([], rem₁)
  { prefecture := prefecture, city := city, area := pyStrip rem₂ }

/-- `PostalCodeService._compare_component`
(postal_data_backup.py lines 717–723). -/
def compare_component (comp₁ comp₂ : List Char) : Bool :=
  if comp₁.isEmpty || comp₂.isEmpty then comp₁ == comp₂
  else comp₁ == comp₂ || isSubstring comp₁ comp₂ || isSubstring comp₂ comp₁

/-- `PostalCodeService._calculate_match_score` of postal_data_backup.py
(lines 636–684, the "strict" variant), named apart from the
postal_data.py scorer of the same Python name. -/
def calculate_match_score_strict (query target : String) : ℚ :=
  if query = "" ∨ target = "" then 0
  else
    let query_clean := removeSpaces query.data
    let target_clean := removeSpaces target.data
    if query_clean = target_clean then 1
    else if isSubstring query_clean target_clean then Rat.divInt 95 100
    else if isSubstring target_clean query_clean then Rat.divInt 9 10
    else
      let query_parts := extract_address_components query_clean
      let target_parts := extract_address_components target_clean
      let prefecture_match := compare_component query_parts.prefecture target_parts.prefecture
      let city_match := compare_component query_parts.city target_parts.city
      let area_match := compare_component query_parts.area target_parts.area
      if !prefecture_match then Rat.divInt 1 10
      else if !city_match then Rat.divInt 2 10
      else if area_match then Rat.divInt 85 100
      else if !query_parts.area.isEmpty && !target_parts.area.isEmpty
              && (isSubstring query_parts.area target_parts.area
                  || isSubstring target_parts.area query_parts.area) then Rat.divInt 75 100
      else Rat.divInt 3 10

/-- Spec-side definition, for refinement comparison only (this is what
the spec's words "cuts it at the first occurrence (earliest position in
the string) of any of the administrative-unit suffix characters"
describe; the source instead scans the suffixes in list order). -/
def city_by_earliest_suffix (remaining : List Char) : Option (List Char) :=
  match remaining.findIdx? cityKindChar with
  | some i => some (remaining.take (i + 1))
  | none => none

/-- A concrete probe oracle used to exercise the API-probing search on
one run: exactly one postal code (350-0001) exists, carrying the address
埼玉県川越市. -/
def probeNetExample : String → ProbeResp := fun pattern =>
  if pattern = "3500001" then ProbeResp.ok 200 [⟨"埼玉県", "川越市", "", "", "", ""⟩]
  else ProbeResp.ok 200 []

/-! ## Theorems -/

section Theorems

/-- Package of the two facts C3 needs about a sorted-and-truncated
candidate list. -/
theorem sorted_take_scoreDesc (results : List MatchCandidate) (n : Nat) :
    ((results.mergeSort scoreDescLe).take n).Sorted
      (fun a b => b.match_score ≤ a.match_score) ∧
    ((results.mergeSort scoreDescLe).take n).length ≤ n := by
  constructor
  · have hs : (results.mergeSort scoreDescLe).Pairwise
        (fun a b => scoreDescLe a b) := by
      apply List.sorted_mergeSort
      · intro a b c hab hbc
        simp only [scoreDescLe, decide_eq_true_eq] at *
        exact le_trans hbc hab
      · intro a b
        simp only [scoreDescLe, Bool.or_eq_true, decide_eq_true_eq]
        exact le_total b.match_score a.match_score
    have hs' : (results.mergeSort scoreDescLe).Pairwise
        (fun a b => b.match_score ≤ a.match_score) := by
      refine hs.imp ?_
      intro a b hab
      simpa [scoreDescLe] using hab
    exact List.Pairwise.sublist (List.take_sublist n _) hs'
  · calc ((results.mergeSort scoreDescLe).take n).length
        ≤ n := by
          rw [List.length_take]
          exact min_le_left _ _

/-- C3: For every query, the candidate list returned by the reverse
search (both the sample-data variant `_search_address_sample` and the
API-probing variant `_search_with_zipcloud_reverse`) is sorted in
non-increasing order of `match_score` and contains at most 10 entries. -/
theorem reverse_search_sorted_and_capped
    (address prefecture : String) (net : String → ProbeResp)
    (pyHash : String → Nat) (l : List MatchCandidate)
    (h : search_address_sample address prefecture = some l ∨
         search_with_zipcloud_reverse address net pyHash = some l) :
    l.Sorted (fun a b => b.match_score ≤ a.match_score) ∧ l.length ≤ 10 := by
  have key : ∀ (results : List MatchCandidate),
      some ((results.mergeSort scoreDescLe).take 10) = some l →
      l.Sorted (fun a b => b.match_score ≤ a.match_score) ∧ l.length ≤ 10 := by
    intro results hr
    cases hr
    exact sorted_take_scoreDesc results 10
  rcases h with h | h
  · simp only [search_address_sample] at h
    split at h
    · exact Option.noConfusion h
    · exact key _ h
  · simp only [search_with_zipcloud_reverse] at h
    split at h
    · split at h
      · exact Option.noConfusion h
      · split at h
        · exact Option.noConfusion h
        · split at h
          · exact Option.noConfusion h
          · exact key _ h
    · exact Option.noConfusion h

/-- Evaluation helper: the pattern list generated for 埼玉県/川越市
(table prefix "350"), for any hash oracle. -/
theorem patterns_kawagoe (pyHash : String → Nat) :
    get_postal_patterns_extended pyHash "埼玉県" "川越市" =
      (List.range 10000).map (fun i => "350" ++ pad4 i) := by
  simp only [get_postal_patterns_extended,
    show prefecture_ranges "埼玉県" "川越市" = some ["350"] from rfl]
  simp [List.flatMap_cons, List.flatMap_nil]

/-- Evaluation helper: the first 50 of `range 10000`. -/
theorem take50_range10000 :
    (List.range 10000).take 50 = List.range 50 := by
  have h1 : List.range' 0 50 ++ List.range' 50 9950 = List.range' 0 10000 := by
    have h := List.range'_append_1 0 50 9950
    norm_num at h
    exact h
  rw [List.range_eq_range' 10000, ← h1,
    List.take_left' (by simp), ← List.range_eq_range' 50]

set_option maxRecDepth 8000 in
/-- Evaluation helper: probing the 50 checked patterns against the
`probeNetExample` oracle yields the single 350-0001 candidate with an
exact match score of 1. -/
theorem probe_kawagoe :
    probeLoop probeNetExample "埼玉県川越市"
      ((List.range 50).map (fun i => "350" ++ pad4 i)) =
      some [⟨"350-0001", "埼玉県川越市", 1⟩] := by decide

/-- Unfolding lemma for `search_with_zipcloud_reverse` once prefecture
and city extraction has succeeded. -/
theorem zipcloud_eval (address : String) (net : String → ProbeResp)
    (pyHash : String → Nat) (pref city : List Char)
    (hx : extract_prefecture_city address.data = (some pref, some city))
    (hguard : (pref.isEmpty || city.isEmpty) = false) :
    search_with_zipcloud_reverse address net pyHash =
      match probeLoop net address
          ((get_postal_patterns_extended pyHash ⟨pref⟩ ⟨city⟩).take
            (min 50 (get_postal_patterns_extended pyHash ⟨pref⟩ ⟨city⟩).length)) with
      | none => none
      | some results =>
          if results.isEmpty then none
          else some ((results.mergeSort scoreDescLe).take 10) := by
  simp only [search_with_zipcloud_reverse, hx, hguard, Bool.false_eq_true, if_false]

/-- One full concrete run of the API-probing reverse search. -/
theorem zip_witness_eq :
    search_with_zipcloud_reverse "埼玉県川越市" probeNetExample (fun _ => 0) =
      some [⟨"350-0001", "埼玉県川越市", 1⟩] := by
  rw [zipcloud_eval "埼玉県川越市" probeNetExample (fun _ => 0)
      ("埼玉県").data ("川越市").data (by decide) (by decide)]
  rw [show ((⟨("埼玉県").data⟩ : String)) = "埼玉県" from rfl,
      show ((⟨("川越市").data⟩ : String)) = "川越市" from rfl]
  rw [patterns_kawagoe, List.length_map, List.length_range]
  rw [show (min 50 10000 : ℕ) = 50 from by norm_num]
  rw [← List.map_take, take50_range10000, probe_kawagoe]
  show (if ([(⟨"350-0001", "埼玉県川越市", 1⟩ : MatchCandidate)]).isEmpty = true then none
        else some (List.take 10
          (([(⟨"350-0001", "埼玉県川越市", 1⟩ : MatchCandidate)]).mergeSort scoreDescLe))) =
      some [(⟨"350-0001", "埼玉県川越市", 1⟩ : MatchCandidate)]
  rw [List.mergeSort_of_sorted (by simp)]
  decide

/-- Unfolding lemma for `search_address_sample` when the collected
`results` list is already sorted. -/
theorem sample_eval (address prefecture : String) (res : List MatchCandidate)
    (h : sample_results address prefecture = res)
    (hs : res.Pairwise (fun a b => scoreDescLe a b))
    (hne : res.isEmpty = false) :
    search_address_sample address prefecture = some (res.take 10) := by
  simp only [search_address_sample, h, List.mergeSort_of_sorted hs, hne,
    Bool.false_eq_true, if_false]

/-- One full concrete run of the sample-data reverse search. -/
theorem sample_witness_eq :
    search_address_sample "東京都千代田" "東京都" = some
      [⟨"100-0001", "東京都千代田区千代田", 1⟩,
       ⟨"100-0004", "東京都千代田区大手町", 1⟩,
       ⟨"100-0005", "東京都千代田区丸の内", 1⟩,
       ⟨"100-0006", "東京都千代田区有楽町", 1⟩,
       ⟨"100-0011", "東京都千代田区内幸町", 1⟩,
       ⟨"100-0013", "東京都千代田区霞が関", 1⟩,
       ⟨"100-0014", "東京都千代田区永田町", 1⟩] := by
  rw [sample_eval "東京都千代田" "東京都"
      [⟨"100-0001", "東京都千代田区千代田", 1⟩,
       ⟨"100-0004", "東京都千代田区大手町", 1⟩,
       ⟨"100-0005", "東京都千代田区丸の内", 1⟩,
       ⟨"100-0006", "東京都千代田区有楽町", 1⟩,
       ⟨"100-0011", "東京都千代田区内幸町", 1⟩,
       ⟨"100-0013", "東京都千代田区霞が関", 1⟩,
       ⟨"100-0014", "東京都千代田区永田町", 1⟩]
      (by decide) (by decide) (by decide)]
  rfl

/-- Witness for C3: both reverse-search variants, run on concrete
inputs, return lists that are sorted by non-increasing score and have at
most 10 entries. -/
theorem reverse_search_sorted_and_capped_witness :
    (List.Sorted (fun a b : MatchCandidate => b.match_score ≤ a.match_score)
      [⟨"100-0001", "東京都千代田区千代田", 1⟩,
       ⟨"100-0004", "東京都千代田区大手町", 1⟩,
       ⟨"100-0005", "東京都千代田区丸の内", 1⟩,
       ⟨"100-0006", "東京都千代田区有楽町", 1⟩,
       ⟨"100-0011", "東京都千代田区内幸町", 1⟩,
       ⟨"100-0013", "東京都千代田区霞が関", 1⟩,
       ⟨"100-0014", "東京都千代田区永田町", 1⟩] ∧
     ([⟨"100-0001", "東京都千代田区千代田", 1⟩,
       ⟨"100-0004", "東京都千代田区大手町", 1⟩,
       ⟨"100-0005", "東京都千代田区丸の内", 1⟩,
       ⟨"100-0006", "東京都千代田区有楽町", 1⟩,
       ⟨"100-0011", "東京都千代田区内幸町", 1⟩,
       ⟨"100-0013", "東京都千代田区霞が関", 1⟩,
       ⟨"100-0014", "東京都千代田区永田町", 1⟩] : List MatchCandidate).length ≤ 10) ∧
    (List.Sorted (fun a b : MatchCandidate => b.match_score ≤ a.match_score)
      [⟨"350-0001", "埼玉県川越市", 1⟩] ∧
     ([⟨"350-0001", "埼玉県川越市", 1⟩] : List MatchCandidate).length ≤ 10) :=
  ⟨reverse_search_sorted_and_capped "東京都千代田" "東京都" probeNetExample
      (fun _ => 0) _ (Or.inl sample_witness_eq),
   reverse_search_sorted_and_capped "埼玉県川越市" "東京都" probeNetExample
      (fun _ => 0) _ (Or.inr zip_witness_eq)⟩

/-- C1: every input whose digit count after separator removal is not
exactly 7, or which still contains a non-digit character after that
removal, makes `get_address_by_postal_code` fail (return `None`)
without performing any network call. -/
theorem invalid_format_no_network (s : String) (net : NetResult)
    (h : (stripSeps s).data.countP pyIsDigit ≠ 7 ∨
         ∃ c ∈ (stripSeps s).data, pyIsDigit c = false) :
    (get_address_by_postal_code s net).value = none ∧
    (get_address_by_postal_code s net).networkCalled = false := by
  have hguard : (pyIsDigitStr (stripSeps s) && (stripSeps s).length == 7) = false := by
    rcases Bool.eq_false_or_eq_true
        (pyIsDigitStr (stripSeps s) && (stripSeps s).length == 7) with hg | hg
    swap
    · exact hg
    · exfalso
      rw [Bool.and_eq_true] at hg
      obtain ⟨hd, hl⟩ := hg
      rw [pyIsDigitStr, Bool.and_eq_true] at hd
      have hall : ∀ c ∈ (stripSeps s).data, pyIsDigit c = true :=
        List.all_eq_true.mp hd.2
      rcases h with h | ⟨c, hc, hcf⟩
      · apply h
        rw [List.countP_eq_length.mpr hall]
        have : (stripSeps s).length = 7 := by simpa using hl
        exact this
      · rw [hall c hc] at hcf
        exact Bool.noConfusion hcf
  constructor <;> simp [get_address_by_postal_code, hguard]

/-- Witness for C1 at the concrete malformed input "123". -/
theorem invalid_format_no_network_witness :
    (get_address_by_postal_code "123" NetResult.requestError).value = none ∧
    (get_address_by_postal_code "123" NetResult.requestError).networkCalled = false :=
  invalid_format_no_network "123" NetResult.requestError (Or.inl (by decide))

/-- Counterexample for C2 as stated: on the well-formed input "1000001",
the value returned when the service reports no match (HTTP OK, empty
results) is exactly the value returned on a transport error — both are
`None`, not distinct outcomes. -/
theorem notfound_vs_transport_same_value :
    (get_address_by_postal_code "1000001" (NetResult.ok 200 [])).value =
      (get_address_by_postal_code "1000001" NetResult.requestError).value ∧
    (get_address_by_postal_code "1000001" (NetResult.ok 200 [])).value = none := by
  decide

/-- C2 as amended: for every well-formed 7-digit input the no-match case
and the transport-error case both return `None`; they differ only in the
user-visible `st.error` message emitted on the transport-error path. -/
theorem notfound_vs_transport_amended (s : String)
    (h7 : (stripSeps s).length = 7) (hd : pyIsDigitStr (stripSeps s) = true) :
    ((get_address_by_postal_code s (NetResult.ok 200 [])).value = none ∧
     (get_address_by_postal_code s (NetResult.ok 200 [])).errors = []) ∧
    ((get_address_by_postal_code s NetResult.requestError).value = none ∧
     (get_address_by_postal_code s NetResult.requestError).errors = [ErrMsg.comm]) := by
  have hguard : (pyIsDigitStr (stripSeps s) && (stripSeps s).length == 7) = true := by
    simp [hd, h7]
  refine ⟨⟨?_, ?_⟩, ⟨?_, ?_⟩⟩ <;> simp [get_address_by_postal_code, hguard]

/-- Witness for the amended C2 at the concrete input "1000001". -/
theorem notfound_vs_transport_amended_witness :
    ((get_address_by_postal_code "1000001" (NetResult.ok 200 [])).value = none ∧
     (get_address_by_postal_code "1000001" (NetResult.ok 200 [])).errors = []) ∧
    ((get_address_by_postal_code "1000001" NetResult.requestError).value = none ∧
     (get_address_by_postal_code "1000001" NetResult.requestError).errors = [ErrMsg.comm]) :=
  notfound_vs_transport_amended "1000001" (by decide) (by decide)

/-- C9: two inputs with the same separator-stripped form (in particular
a 7-digit code with and without hyphens) are given to the network layer
and mapped back identically: the whole lookup result coincides. -/
theorem normalization_invariance (s t : String)
    (h : stripSeps s = stripSeps t) (net : NetResult) :
    get_address_by_postal_code s net = get_address_by_postal_code t net := by
  simp only [get_address_by_postal_code]
  rw [h]

/-- Witness for C9: "100-0001" and "1000001" normalize identically and
produce identical lookup outcomes. -/
theorem normalization_invariance_witness :
    stripSeps "100-0001" = stripSeps "1000001" ∧
    get_address_by_postal_code "100-0001" NetResult.requestError =
      get_address_by_postal_code "1000001" NetResult.requestError :=
  ⟨by decide,
   normalization_invariance "100-0001" "1000001" (by decide) NetResult.requestError⟩

/-- Separator stripping is invariant under the NNN-NNNN formatting of an
already-stripped string. -/
theorem stripSeps_fmt7 (s : String) :
    stripSeps (fmt7 (stripSeps s)) = stripSeps s := by
  apply String.ext
  show List.filter (fun c => !isSep c)
      ((stripSeps s).data.take 3 ++ '-' :: (stripSeps s).data.drop 3) =
    (stripSeps s).data
  have hmem : ∀ a ∈ (stripSeps s).data, (!isSep a) = true := by
    intro a ha
    have ha' : a ∈ List.filter (fun c => !isSep c) s.data := ha
    exact (List.mem_filter.mp ha').2
  rw [List.filter_append]
  rw [show List.filter (fun c => !isSep c) ('-' :: (stripSeps s).data.drop 3) =
      List.filter (fun c => !isSep c) ((stripSeps s).data.drop 3) from by
    simp [List.filter_cons, isSep]]
  rw [List.filter_eq_self.mpr (fun a ha => hmem a (List.mem_of_mem_take ha)),
      List.filter_eq_self.mpr (fun a ha => hmem a (List.mem_of_mem_drop ha)),
      List.take_append_drop]

/-- C10: `format_postal_code` is idempotent; an input that cleans up to
7 digits is returned as `NNN-NNNN` of its stripped form, and any other
input is returned completely unchanged. -/
theorem format_postal_code_idempotent (s : String) :
    format_postal_code (format_postal_code s) = format_postal_code s ∧
    ((stripSeps s).length = 7 ∧ pyIsDigitStr (stripSeps s) = true →
      format_postal_code s = fmt7 (stripSeps s)) ∧
    (¬ ((stripSeps s).length = 7 ∧ pyIsDigitStr (stripSeps s) = true) →
      format_postal_code s = s) := by
  by_cases hv : (stripSeps s).length = 7 ∧ pyIsDigitStr (stripSeps s) = true
  · have hg : ((stripSeps s).length == 7 && pyIsDigitStr (stripSeps s)) = true := by
      simp [hv.1, hv.2]
    have hfmt : format_postal_code s = fmt7 (stripSeps s) := by
      simp [format_postal_code, hg]
    refine ⟨?_, fun _ => hfmt, fun hc => absurd hv hc⟩
    have hstrip := stripSeps_fmt7 s
    have hg2 : ((stripSeps (fmt7 (stripSeps s))).length == 7 &&
        pyIsDigitStr (stripSeps (fmt7 (stripSeps s)))) = true := by
      rw [hstrip]; exact hg
    rw [hfmt]
    simp [format_postal_code, hg2, hstrip]
  · have hg : ((stripSeps s).length == 7 && pyIsDigitStr (stripSeps s)) = false := by
      rcases Bool.eq_false_or_eq_true
          ((stripSeps s).length == 7 && pyIsDigitStr (stripSeps s)) with hg | hg
      swap
      · exact hg
      · rw [Bool.and_eq_true, beq_iff_eq] at hg
        exact absurd ⟨hg.1, hg.2⟩ hv
    have hid : format_postal_code s = s := by simp [format_postal_code, hg]
    refine ⟨?_, fun hvalid => absurd hvalid hv, fun _ => hid⟩
    rw [hid]
    exact hid

/-- Witness for C10: a separator-bearing valid code is normalized to
NNN-NNNN form (here a fixed point), and a malformed input is returned
unchanged. -/
theorem format_postal_code_idempotent_witness :
    format_postal_code "100-0001" = "100-0001" ∧ format_postal_code "abc" = "abc" := by
  constructor
  · have h := (format_postal_code_idempotent "100-0001").2.1 ⟨by decide, by decide⟩
    rw [h]; decide
  · exact (format_postal_code_idempotent "abc").2.2 (by decide)

/-- C4: both match-scoring functions (the Jaccard-like character-overlap
scorer of postal_data.py and the structural component scorer of
postal_data_backup.py) always return a value in [0, 1]. -/
theorem match_scores_in_unit_interval (q t : String) :
    (0 ≤ calculate_match_score q t ∧ calculate_match_score q t ≤ 1) ∧
    (0 ≤ calculate_match_score_strict q t ∧ calculate_match_score_strict q t ≤ 1) := by
  constructor
  · by_cases h : (removeSpaces q.data).toFinset = ∅
    · simp [calculate_match_score, h]
    · simp only [calculate_match_score, if_neg h]
      rw [Rat.divInt_eq_div]
      push_cast
      have hpos : (0:ℚ) < ((removeSpaces q.data).toFinset.card : ℚ) := by
        exact_mod_cast Finset.card_pos.mpr (Finset.nonempty_iff_ne_empty.mpr h)
      constructor
      · positivity
      · rw [div_le_one hpos]
        exact_mod_cast Finset.card_le_card Finset.inter_subset_left
  · simp only [calculate_match_score_strict]
    constructor
    all_goals repeat' split
    all_goals norm_num [Rat.divInt_eq_div]

/-- Counterexample for C5 as stated: scoring a non-empty string against
itself does not always give 1.0 in the Jaccard-like scorer — the
whitespace-only query " " scores 0 against itself. -/
theorem self_score_one_cex :
    ¬ ∀ q : String, q ≠ "" →
      calculate_match_score q q = 1 ∧ calculate_simple_match_score q q = 1 := by
  intro h
  have h2 := (h " " (by decide)).1
  rw [show calculate_match_score " " " " = 0 from by decide] at h2
  exact absurd h2 (by norm_num)

/-- C5 as amended: the simple scorer gives exactly 1.0 on `score(q, q)`
for every non-empty `q`; the Jaccard-like scorer gives exactly 1.0 on
`score(q, q)` whenever `q` has at least one non-space character (and 0.0
for whitespace-only `q`). -/
theorem self_score_one_amended (q : String) (hq : q ≠ "") :
    calculate_simple_match_score q q = 1 ∧
    (removeSpaces q.data ≠ [] → calculate_match_score q q = 1) := by
  constructor
  · simp [calculate_simple_match_score, hq]
  · intro hr
    have hne : (removeSpaces q.data).toFinset ≠ ∅ := by
      simpa [List.toFinset_eq_empty_iff] using hr
    simp only [calculate_match_score, if_neg hne, Finset.inter_self]
    rw [Rat.divInt_eq_div]
    have hpos : (0:ℚ) < ((removeSpaces q.data).toFinset.card : ℚ) := by
      exact_mod_cast Finset.card_pos.mpr (Finset.nonempty_iff_ne_empty.mpr hne)
    push_cast
    exact div_self (ne_of_gt hpos)

/-- Witness for the amended C5 on the concrete query "東京". -/
theorem self_score_one_amended_witness :
    calculate_simple_match_score "東京" "東京" = 1 ∧
    calculate_match_score "東京" "東京" = 1 :=
  ⟨(self_score_one_amended "東京" (by decide)).1,
   (self_score_one_amended "東京" (by decide)).2 (by decide)⟩

/-- Dropping a whitespace prefix does not change the number of
non-whitespace characters. -/
theorem countP_dropWhile_ws (l : List Char) :
    (l.dropWhile isPyWs).countP (fun c => !isPyWs c) =
      l.countP (fun c => !isPyWs c) := by
  induction l with
  | nil => rfl
  | cons c rest ih =>
      rw [List.dropWhile_cons]
      by_cases hc : isPyWs c
      · rw [if_pos hc, ih, List.countP_cons]
        simp [hc]
      · rw [if_neg hc]

/-- Stripping whitespace from both ends does not change the number of
non-whitespace characters. -/
theorem countP_pyStrip (l : List Char) :
    (pyStrip l).countP (fun c => !isPyWs c) = l.countP (fun c => !isPyWs c) := by
  unfold pyStrip
  rw [(List.reverse_perm _).countP_eq, countP_dropWhile_ws,
    (List.reverse_perm _).countP_eq, countP_dropWhile_ws]

/-- The head surviving `dropWhile` fails the dropped predicate. -/
theorem dropWhile_head_false (q : Char → Bool) :
    ∀ (m : List Char) (x : Char) (xs : List Char),
      m.dropWhile q = x :: xs → q x = false
  | [], x, xs, h => by simp at h
  | c :: rest, x, xs, h => by
      rw [List.dropWhile_cons] at h
      by_cases hc : q c
      · rw [if_pos hc] at h
        exact dropWhile_head_false q rest x xs h
      · rw [if_neg hc] at h
        injection h with h1 h2
        subst h1
        exact Bool.eq_false_iff.mpr hc

/-- A stripped string of length ≥ 2 witnesses at least two
non-whitespace characters in the original (its first and last
characters). -/
theorem two_le_countP_of_strip_len (l : List Char)
    (h : 2 ≤ (pyStrip l).length) : 2 ≤ l.countP (fun c => !isPyWs c) := by
  rw [← countP_pyStrip]
  rcases hty : (l.dropWhile isPyWs).reverse.dropWhile isPyWs with _ | ⟨y, t'⟩
  · have hnil : pyStrip l = [] := by rw [pyStrip, hty]; rfl
    rw [hnil] at h
    simp at h
  · have hyws : isPyWs y = false := dropWhile_head_false _ _ _ _ hty
    have hrepr : pyStrip l = (y :: t').reverse := by rw [pyStrip, hty]
    have hlen : 2 ≤ (y :: t').length := by
      rw [hrepr, List.length_reverse] at h
      exact h
    have ht' : t' ≠ [] := by
      intro he
      rw [he] at hlen
      simp at hlen
    have hsuffix : (y :: t') <:+ (l.dropWhile isPyWs).reverse := by
      rw [← hty]
      exact List.dropWhile_suffix _
    obtain ⟨pre, hpre⟩ := hsuffix
    obtain ⟨z, hz⟩ : ∃ z, (y :: t').getLast? = some z := by
      cases hgl : (y :: t').getLast? with
      | none => simp [List.getLast?_eq_none_iff] at hgl
      | some w => exact ⟨w, rfl⟩
    have hlast : ((l.dropWhile isPyWs).reverse).getLast? = some z := by
      rw [← hpre, List.getLast?_append, hz]
      rfl
    have hheads : (l.dropWhile isPyWs).head? = some z := by
      rw [← List.getLast?_reverse]
      exact hlast
    have hzws : isPyWs z = false := by
      cases hs : l.dropWhile isPyWs with
      | nil => rw [hs] at hheads; exact Option.noConfusion hheads
      | cons a as =>
          rw [hs] at hheads
          have haz : a = z := by simpa using hheads
          subst haz
          exact dropWhile_head_false _ l a as hs
    have hzmem : z ∈ t' := by
      have hcc : (y :: t').getLast? = t'.getLast? := by
        cases t' with
        | nil => exact absurd rfl ht'
        | cons b bs => rw [List.getLast?_cons_cons]
      rw [hcc] at hz
      exact List.mem_of_getLast?_eq_some hz
    rw [hrepr, (List.reverse_perm _).countP_eq, List.countP_cons]
    have h1 : 0 < t'.countP (fun c => !isPyWs c) :=
      List.countP_pos_iff.mpr ⟨z, hzmem, by simp [hzws]⟩
    rw [hyws, Bool.not_false, if_pos rfl]
    omega

/-- If a string has at least two non-whitespace characters, the length
guard of `search_postal_code_by_address` does not fire. -/
theorem inputTooShort_false_of_two (a : String)
    (h : 2 ≤ a.data.countP (fun c => !isPyWs c)) : inputTooShort a = false := by
  unfold inputTooShort
  have h1 : (a == "") = false := by
    rw [beq_eq_false_iff_ne]
    intro he
    subst he
    simp at h
  have h2 : decide ((pyStrip a.data).length < 2) = false := by
    rw [decide_eq_false_iff_not]
    intro hlt
    have hc : (pyStrip a.data).countP (fun c => !isPyWs c) ≤
        (pyStrip a.data).length := List.countP_le_length _
    rw [countP_pyStrip] at hc
    omega
  rw [h1, h2]
  rfl

/-- If a string has fewer than two non-whitespace characters, the length
guard fires. -/
theorem inputTooShort_true_of_short (a : String)
    (h : a.data.countP (fun c => !isPyWs c) < 2) : inputTooShort a = true := by
  unfold inputTooShort
  by_cases he : a = ""
  · subst he
    rfl
  · have h2 : (pyStrip a.data).length < 2 := by
      by_contra hnl
      push_neg at hnl
      have := two_le_countP_of_strip_len a.data hnl
      omega
    simp [h2]

/-- C6: an input with fewer than 2 non-whitespace characters makes both
reverse-search entry points fail (return `None`) regardless of any
remote behaviour — before any extraction or lookup; an input with at
least 2 non-whitespace characters passes the length check. -/
theorem search_input_length_guard (a : String) :
    (a.data.countP (fun c => !isPyWs c) < 2 →
      search_postal_code_by_address a = none ∧
      ∀ (hr : Option (List HRLoc)) (net : String → ProbeResp) (pyHash : String → Nat),
        search_postal_code_by_address_clean a hr net pyHash = none) ∧
    (2 ≤ a.data.countP (fun c => !isPyWs c) → inputTooShort a = false) := by
  constructor
  · intro h
    have hg := inputTooShort_true_of_short a h
    refine ⟨?_, ?_⟩
    · simp [search_postal_code_by_address, hg]
    · intro hr net pyHash
      simp [search_postal_code_by_address_clean, hg]
  · exact fun h => inputTooShort_false_of_two a h

/-- Witness for C6: the 1-character input "a" is rejected by both entry
points with arbitrary oracles; the 2-character input "ab" passes the
guard. -/
theorem search_input_length_guard_witness :
    (search_postal_code_by_address "a" = none ∧
     search_postal_code_by_address_clean "a" none
       (fun _ => ProbeResp.reqError) (fun _ => 0) = none) ∧
    inputTooShort "ab" = false :=
  ⟨⟨((search_input_length_guard "a").1 (by decide)).1,
    ((search_input_length_guard "a").1 (by decide)).2 none
      (fun _ => ProbeResp.reqError) (fun _ => 0)⟩,
   (search_input_length_guard "ab").2 (by decide)⟩

/-- `find?` returns the first element of the list, in list order, that
satisfies the predicate. -/
theorem find?_first {α : Type} (p : α → Bool) :
    ∀ (l : List α) (x : α), l.find? p = some x →
      ∃ l₁ l₂, l = l₁ ++ x :: l₂ ∧ (∀ y ∈ l₁, p y = false) ∧ p x = true
  | [], x, h => by simp at h
  | a :: rest, x, h => by
      by_cases ha : p a
      · rw [List.find?_cons_of_pos _ ha] at h
        injection h with h1
        subst h1
        exact ⟨[], rest, rfl, by simp, ha⟩
      · rw [List.find?_cons_of_neg _ ha] at h
        obtain ⟨l₁, l₂, rfl, hl₁, hx⟩ := find?_first p rest x h
        refine ⟨a :: l₁, l₂, rfl, ?_, hx⟩
        intro y hy
        rcases List.mem_cons.mp hy with rfl | hy
        · exact Bool.eq_false_iff.mpr ha
        · exact hl₁ y hy

/-- C7: whenever some prefecture name occurs in the input, the
extraction loop selects the first matching name in the fixed list order
(the 47-entry `prefectures` list), not the longest match nor the one
occurring earliest in the input string. -/
theorem prefecture_first_in_list_order (address : List Char)
    (h : ∃ p ∈ prefectures, isSubstring p.data address = true) :
    ∃ l₁ p l₂, prefectures = l₁ ++ p :: l₂ ∧
      findPrefecture address = some p ∧
      isSubstring p.data address = true ∧
      (∀ q ∈ l₁, isSubstring q.data address = false) ∧
      (extract_prefecture_city address).1 = some p.data := by
  obtain ⟨p0, hp0, hsub⟩ := h
  have hsome : (prefectures.find? (fun p => isSubstring p.data address)).isSome :=
    List.find?_isSome.mpr ⟨p0, hp0, hsub⟩
  obtain ⟨p, hp⟩ := Option.isSome_iff_exists.mp hsome
  have hfp : findPrefecture address = some p := hp
  obtain ⟨l₁, l₂, hsplit, hfalse, htrue⟩ := find?_first _ _ _ hp
  refine ⟨l₁, p, l₂, hsplit, hfp, htrue, hfalse, ?_⟩
  simp [extract_prefecture_city, hfp]

/-- Witness for C7 at the concrete input "京都府東京都": both 東京都 and
京都府 occur (京都府 even occurs earlier in the string), and the one
selected is the first in list order. -/
theorem prefecture_first_in_list_order_witness :
    ∃ l₁ p l₂, prefectures = l₁ ++ p :: l₂ ∧
      findPrefecture ("京都府東京都").data = some p ∧
      isSubstring p.data ("京都府東京都").data = true ∧
      (∀ q ∈ l₁, isSubstring q.data ("京都府東京都").data = false) ∧
      (extract_prefecture_city ("京都府東京都").data).1 = some p.data :=
  prefecture_first_in_list_order ("京都府東京都").data (by decide)

/-- Counterexample for C8 as stated: on the input 長野県大町市 the
remainder after the prefecture is 大町市; the earliest administrative
suffix in it is 町 (position 1), so the claimed cut would give 大町, but
the code scans the suffixes in the fixed order 市, 区, 町, 村 and
returns 大町市. -/
theorem city_cut_earliest_cex :
    (extract_prefecture_city ("長野県大町市").data).2 = some ("大町市").data ∧
    city_by_earliest_suffix (pyStrip (dropAfterFirst ("長野県").data ("長野県大町市").data)) =
      some ("大町").data ∧
    some ("大町市").data ≠ some ("大町").data := by decide

/-- The take of a found index is non-empty. -/
theorem take_findIdx_isEmpty_false (r : List Char) (s : Char)
    (h : r.contains s = true) :
    (r.take (r.findIdx (· == s) + 1)).isEmpty = false := by
  have hmem : s ∈ r := List.elem_iff.mp h
  have hlt : r.findIdx (· == s) < r.length :=
    List.findIdx_lt_length_of_exists ⟨s, hmem, by simp⟩
  rw [List.isEmpty_eq_false]
  intro he
  have hlen := congrArg List.length he
  rw [List.length_take] at hlen
  simp only [List.length_nil] at hlen
  omega

/-- The city-suffix loop, rewritten as the explicit priority chain
市 → 区 → 町 → 村. -/
theorem cityLoop_eq_chain (r : List Char) :
    cityLoop r =
      (if r.contains '市' then some (r.take (r.findIdx (· == '市') + 1))
       else if r.contains '区' then some (r.take (r.findIdx (· == '区') + 1))
       else if r.contains '町' then some (r.take (r.findIdx (· == '町') + 1))
       else if r.contains '村' then some (r.take (r.findIdx (· == '村') + 1))
       else none) := by
  unfold cityLoop
  by_cases h1 : r.contains '市'
  · rw [List.find?_cons_of_pos _ h1, if_pos h1]
  · rw [List.find?_cons_of_neg _ h1, if_neg h1]
    by_cases h2 : r.contains '区'
    · rw [List.find?_cons_of_pos _ h2, if_pos h2]
    · rw [List.find?_cons_of_neg _ h2, if_neg h2]
      by_cases h3 : r.contains '町'
      · rw [List.find?_cons_of_pos _ h3, if_pos h3]
      · rw [List.find?_cons_of_neg _ h3, if_neg h3]
        by_cases h4 : r.contains '村'
        · rw [List.find?_cons_of_pos _ h4, if_pos h4]
        · rw [List.find?_cons_of_neg _ h4, if_neg h4]
          rfl

/-- C8 as amended: when a prefecture is found, the city is cut from the
whitespace-stripped remainder after the prefecture's first occurrence,
at the first occurrence of the first suffix present in the fixed
priority order 市, 区, 町, 村 (not at the earliest suffix position in
the string); if no suffix occurs, the city falls back to the first
whitespace-delimited token of the remainder, or its 6-character prefix,
and stays undefined for an empty remainder. -/
theorem city_cut_amended (address : List Char) (p : String)
    (hp : findPrefecture address = some p) :
    (extract_prefecture_city address).1 = some p.data ∧
    (extract_prefecture_city address).2 =
      (if (pyStrip (dropAfterFirst p.data address)).contains '市' then
         some ((pyStrip (dropAfterFirst p.data address)).take
           ((pyStrip (dropAfterFirst p.data address)).findIdx (· == '市') + 1))
       else if (pyStrip (dropAfterFirst p.data address)).contains '区' then
         some ((pyStrip (dropAfterFirst p.data address)).take
           ((pyStrip (dropAfterFirst p.data address)).findIdx (· == '区') + 1))
       else if (pyStrip (dropAfterFirst p.data address)).contains '町' then
         some ((pyStrip (dropAfterFirst p.data address)).take
           ((pyStrip (dropAfterFirst p.data address)).findIdx (· == '町') + 1))
       else if (pyStrip (dropAfterFirst p.data address)).contains '村' then
         some ((pyStrip (dropAfterFirst p.data address)).take
           ((pyStrip (dropAfterFirst p.data address)).findIdx (· == '村') + 1))
       else if (pyStrip (dropAfterFirst p.data address)).isEmpty then none
       else some (match pySplit (pyStrip (dropAfterFirst p.data address)) with
                  | t :: _ => t
                  | [] => (pyStrip (dropAfterFirst p.data address)).take 6)) := by
  constructor
  · simp [extract_prefecture_city, hp]
  · simp only [extract_prefecture_city, hp]
    generalize pyStrip (dropAfterFirst p.data address) = r
    rw [cityLoop_eq_chain]
    by_cases h1 : '市' ∈ r
    · simp [h1, take_findIdx_isEmpty_false r '市' (by simpa using h1)]
    · by_cases h2 : '区' ∈ r
      · simp [h1, h2, take_findIdx_isEmpty_false r '区' (by simpa using h2)]
      · by_cases h3 : '町' ∈ r
        · simp [h1, h2, h3, take_findIdx_isEmpty_false r '町' (by simpa using h3)]
        · by_cases h4 : '村' ∈ r
          · simp [h1, h2, h3, h4, take_findIdx_isEmpty_false r '村' (by simpa using h4)]
          · by_cases h5 : r = []
            · simp [h1, h2, h3, h4, h5]
            · simp [h1, h2, h3, h4, h5]

/-- Witness for the amended C8 at the concrete input 長野県大町市. -/
theorem city_cut_amended_witness :
    (extract_prefecture_city ("長野県大町市").data).1 = some ("長野県").data ∧
    (extract_prefecture_city ("長野県大町市").data).2 =
      (if (pyStrip (dropAfterFirst ("長野県").data ("長野県大町市").data)).contains '市' then
         some ((pyStrip (dropAfterFirst ("長野県").data ("長野県大町市").data)).take
           ((pyStrip (dropAfterFirst ("長野県").data ("長野県大町市").data)).findIdx (· == '市') + 1))
       else if (pyStrip (dropAfterFirst ("長野県").data ("長野県大町市").data)).contains '区' then
         some ((pyStrip (dropAfterFirst ("長野県").data ("長野県大町市").data)).take
           ((pyStrip (dropAfterFirst ("長野県").data ("長野県大町市").data)).findIdx (· == '区') + 1))
       else if (pyStrip (dropAfterFirst ("長野県").data ("長野県大町市").data)).contains '町' then
         some ((pyStrip (dropAfterFirst ("長野県").data ("長野県大町市").data)).take
           ((pyStrip (dropAfterFirst ("長野県").data ("長野県大町市").data)).findIdx (· == '町') + 1))
       else if (pyStrip (dropAfterFirst ("長野県").data ("長野県大町市").data)).contains '村' then
         some ((pyStrip (dropAfterFirst ("長野県").data ("長野県大町市").data)).take
           ((pyStrip (dropAfterFirst ("長野県").data ("長野県大町市").data)).findIdx (· == '村') + 1))
       else if (pyStrip (dropAfterFirst ("長野県").data ("長野県大町市").data)).isEmpty then none
       else some (match pySplit (pyStrip (dropAfterFirst ("長野県").data ("長野県大町市").data)) with
                  | t :: _ => t
                  | [] => (pyStrip (dropAfterFirst ("長野県").data ("長野県大町市").data)).take 6)) :=
  city_cut_amended ("長野県大町市").data "長野県" (by decide)

end Theorems

end PostalCode
